import Mathlib

/-!
# Verification of the `bestsource-sys` C wrapper (`wrapper.cpp` / `wrapper.h`)

A shallow embedding of the C-ABI façade in `src/bestsource-sys/wrapper/`.
Each entry point of `wrapper.cpp` wraps one call into the underlying
`BestAudioSource` library in a `try`/`catch` dispatch that converts thrown
failures into an integer status plus an out-value carrier, writing the
diagnostic `what(): <msg>` to `std::cerr` on a caught `std::exception`.

Modelling conventions:
* The result of the single underlying library call an entry point makes is
  abstracted as an `UnderlyingOutcome`: normal return with a value, a thrown
  `std::exception` with its `what()` message, or any other thrown value.
  The opaque handle `self` and the forwarded scalar arguments reach the
  underlying library only through that call; the façade itself neither reads
  nor writes anything else, so they are subsumed by the outcome.
* C `double` values are only ever copied by the wrapper (never computed
  with), so they are modelled by their 64-bit patterns as `Nat`.
* Each local result carrier is declared uninitialized in the C source
  (for example `BSW_PointerWithError ret;`); its indeterminate initial
  contents are modelled by an explicit `init` parameter.
* Each entry point returns, besides its C return value, the text it appends
  to the process-wide `std::cerr` stream during the call.
-/

/-- C `double` values modelled by their 64-bit bit patterns: the wrapper only
ever copies doubles, never computes with them. -/
abbrev CDouble := Nat

/-- Result of the one call an entry point makes into the underlying
`BestAudioSource` library: normal return carrying a value, a thrown
`std::exception` whose `what()` text is `msg`, or any other thrown value. -/
inductive UnderlyingOutcome (α : Type) where
  | ok (a : α)
  | exn (msg : String)
  | other
deriving DecidableEq

/-- `struct BSW_IntWithError` from `wrapper.h`: `{int error; int value;}`. -/
structure BSW_IntWithError where
  error : Int
  value : Int
deriving DecidableEq

/-- `struct BSW_DoubleWithError` from `wrapper.h`: `{int error; double value;}`. -/
structure BSW_DoubleWithError where
  error : Int
  value : CDouble
deriving DecidableEq

/-- `struct BSW_PointerWithError` from `wrapper.h`: `{int error; void *value;}`.
A `void *` is `none` (null) or `some id` for a live object identity. -/
structure BSW_PointerWithError where
  error : Int
  value : Option Nat
deriving DecidableEq

/-- The text `wrapper.cpp` sends to `std::cerr` on a caught `std::exception`:
`std::cerr << "what(): " << ex.what();`. -/
def whatTag (msg : String) : String := "what(): " ++ msg

/-- The argument tuple `wrapper.cpp` hands to the underlying constructor in
`BestAudioSource_new`:
`new BestAudioSource(SourceFile, Track, AjustDelay, Threads, CachePath, nullptr, DrcScale)`.
`Progress` is the indexing-progress callback capability passed to the
underlying source (a function pointer, modelled by identity); the call site
contains only the six façade parameters and the literal `nullptr`, no
callback. -/
structure CtorCall where
  SourceFile : String
  Track : Int
  AjustDelay : Int
  Threads : Int
  CachePath : String
  Progress : Option Nat
  DrcScale : CDouble
deriving DecidableEq

/-- The constructor invocation `BestAudioSource_new` performs, as a function
of the parameters its `wrapper.cpp` definition actually has (`SourceFile`,
`Track`, `AjustDelay`, `Threads`, `CachePath`, `DrcScale` — the declaration
in `wrapper.h` additionally lists `CacheMode` and `Progress`, but the
definition takes neither). The progress slot is the literal `nullptr`. -/
def BestAudioSource_new_ctorArgs (SourceFile : String) (Track AjustDelay Threads : Int)
    (CachePath : String) (DrcScale : CDouble) : CtorCall :=
  ⟨SourceFile, Track, AjustDelay, Threads, CachePath, none, DrcScale⟩

/-- `BestAudioSource_new` (wrapper.cpp lines 6–25). The local `ret` is
uninitialized; on success both fields are assigned; on a caught
`std::exception` only `ret.error = 2` is assigned (plus the `cerr` write);
on any other thrown value only `ret.error = 1`. In the failure branches
`ret.value` keeps its indeterminate initial contents `init.value`. -/
def BestAudioSource_new (init : BSW_PointerWithError) (o : UnderlyingOutcome Nat) :
    BSW_PointerWithError × String :=
  match o with
  | .ok ptr => (⟨0, some ptr⟩, "")
  | .exn msg => (⟨2, init.value⟩, whatTag msg)
  | .other => (⟨1, init.value⟩, "")

/-- `BestAudioSource_delete` (wrapper.cpp lines 27–44): `delete` the source,
return bare status 0/2/1. -/
def BestAudioSource_delete (o : UnderlyingOutcome Unit) : Int × String :=
  match o with
  | .ok _ => (0, "")
  | .exn msg => (2, whatTag msg)
  | .other => (1, "")

/-- `BestAudioSource_GetTrack` (wrapper.cpp lines 46–65). `ret.error = 0` is
assigned, then `ret.value = BAS->GetTrack()`; a caught `std::exception` sets
`ret.error = 2`, any other thrown value sets `ret.error = 1`; in both failure
branches `ret.value` keeps its indeterminate initial contents. -/
def BestAudioSource_GetTrack (init : BSW_IntWithError) (o : UnderlyingOutcome Int) :
    BSW_IntWithError × String :=
  match o with
  | .ok v => (⟨0, v⟩, "")
  | .exn msg => (⟨2, init.value⟩, whatTag msg)
  | .other => (⟨1, init.value⟩, "")

/-- `BestAudioSource_SetMaxCacheSize` (wrapper.cpp lines 67–84): forwards
`Bytes` to `BAS->SetMaxCacheSize`, returns bare status 0/2/1. -/
def BestAudioSource_SetMaxCacheSize (o : UnderlyingOutcome Unit) : Int × String :=
  match o with
  | .ok _ => (0, "")
  | .exn msg => (2, whatTag msg)
  | .other => (1, "")

/-- `BestAudioSource_SetSeekPreRoll` (wrapper.cpp lines 86–103): forwards
`Samples` to `BAS->SetSeekPreRoll`, returns bare status 0/2/1. -/
def BestAudioSource_SetSeekPreRoll (o : UnderlyingOutcome Unit) : Int × String :=
  match o with
  | .ok _ => (0, "")
  | .exn msg => (2, whatTag msg)
  | .other => (1, "")

/-- `BestAudioSource_GetRelativeStartTime` (wrapper.cpp lines 105–125).
The `try` block assigns `ret.error = 0` and then calls the underlying
method. The `catch (const std::exception &)` block sets the outer
`ret.error = 2`. The `catch (...)` block, however, declares a fresh local
`BSW_DoubleWithError ret;` that shadows the function's result and sets
`error = 1` on that shadow only; the `return ret;` after the `try`/`catch`
returns the outer carrier, whose `error` is still the `0` assigned before
the call and whose `value` keeps its indeterminate initial contents. -/
def BestAudioSource_GetRelativeStartTime (init : BSW_DoubleWithError)
    (o : UnderlyingOutcome CDouble) : BSW_DoubleWithError × String :=
  match o with
  | .ok v => (⟨0, v⟩, "")
  | .exn msg => (⟨2, init.value⟩, whatTag msg)
  | .other => (⟨0, init.value⟩, "")

/-- Narrowing conversion from a C `int64_t` value to a C `int` (32-bit,
two's complement): reduction modulo `2^32` into `[-2^31, 2^31)`. -/
def intCast32 (x : Int) : Int := (x + 2 ^ 31) % 2 ^ 32 - 2 ^ 31

/-- Modelled from the spec: the underlying `BestAudioSource::GetExactDuration`
(declared in `audiosource.h`, which is not under `src/`) performs the
full-stream scan and yields the exact number of samples as a signed 64-bit
integer (spec §6: `GetExactDuration() → int64`, refines `NumSamples`). -/
abbrev ExactSampleCount := Int

/-- `BestAudioSource_GetExactDuration` (wrapper.cpp lines 127–147). The
`try` block assigns `ret.error = 0`, then
`ret.value = BAS->GetExactDuration();` stores the underlying 64-bit sample
count into the 32-bit `int value` field of `BSW_IntWithError`, narrowing it.
As in `BestAudioSource_GetRelativeStartTime`, the `catch (...)` block sets
`error = 1` on a fresh shadowing local, so on such a failure the returned
carrier has `error = 0` (assigned before the call) and an indeterminate
`value`. -/
def BestAudioSource_GetExactDuration (init : BSW_IntWithError)
    (o : UnderlyingOutcome ExactSampleCount) : BSW_IntWithError × String :=
  match o with
  | .ok n => (⟨0, intCast32 n⟩, "")
  | .exn msg => (⟨2, init.value⟩, whatTag msg)
  | .other => (⟨0, init.value⟩, "")

/-- The underlying `AudioProperties` value, with exactly the fields
`wrapper.cpp` reads from it (`AP.IsFloat`, `AP.BytesPerSample`,
`AP.BitsPerSample`, `AP.SampleRate`, `AP.Channels`, `AP.ChannelLayout`,
`AP.NumSamples`, `AP.StartTime`); semantic types per spec §3. -/
structure AudioProperties where
  IsFloat : Int
  BytesPerSample : Int
  BitsPerSample : Int
  SampleRate : Int
  Channels : Int
  ChannelLayout : Nat
  NumSamples : Int
  StartTime : CDouble
deriving DecidableEq

/-- `struct BestAudioSource_AudioFormat` as declared in `wrapper.h`
(lines 23–27): the embedded format sub-struct `{Float, Bits, BytesPerSample}`. -/
structure BestAudioSource_AudioFormat where
  Float : Int
  Bits : Int
  BytesPerSample : Int
deriving DecidableEq

/-- `struct BestAudioSource_AudioProperties` as declared in `wrapper.h`
(lines 29–37): status plus the embedded `AF` sub-struct and the per-stream
fields. Note that `wrapper.cpp` does not write this shape: its
`BestAudioSource_GetAudioProperties` body assigns the flat fields of
`BestAudioSource_AudioProperties_flat` below, which do not exist in this
declared struct. -/
structure BestAudioSource_AudioProperties where
  error : Int
  AF : BestAudioSource_AudioFormat
  SampleRate : Int
  Channels : Int
  ChannelLayout : Nat
  NumSamples : Int
  StartTime : CDouble
deriving DecidableEq

/-- The flat properties carrier that the `wrapper.cpp` body of
`BestAudioSource_GetAudioProperties` (lines 149–179) actually assigns:
`BAS_AP.error`, `BAS_AP.IsFloat`, `BAS_AP.BytesPerSample`,
`BAS_AP.BitsPerSample`, `BAS_AP.SampleRate`, `BAS_AP.Channels`,
`BAS_AP.ChannelLayout`, `BAS_AP.NumSamples`, `BAS_AP.StartTime`. This is the
earlier flat revision of the struct (spec §9 notes the version drift); it is
not the shape declared in `wrapper.h`. -/
structure BestAudioSource_AudioProperties_flat where
  error : Int
  IsFloat : Int
  BytesPerSample : Int
  BitsPerSample : Int
  SampleRate : Int
  Channels : Int
  ChannelLayout : Nat
  NumSamples : Int
  StartTime : CDouble
deriving DecidableEq

/-- `BestAudioSource_GetAudioProperties` (wrapper.cpp lines 149–179). The
local `BAS_AP` is uninitialized; on success `error = 0` and all eight
property fields are copied from the underlying `AudioProperties`; a caught
`std::exception` sets only `error = 2` (plus the `cerr` write), any other
thrown value sets only `error = 1`, leaving the property fields with their
indeterminate initial contents. -/
def BestAudioSource_GetAudioProperties (init : BestAudioSource_AudioProperties_flat)
    (o : UnderlyingOutcome AudioProperties) :
    BestAudioSource_AudioProperties_flat × String :=
  match o with
  | .ok AP =>
      (⟨0, AP.IsFloat, AP.BytesPerSample, AP.BitsPerSample, AP.SampleRate,
        AP.Channels, AP.ChannelLayout, AP.NumSamples, AP.StartTime⟩, "")
  | .exn msg => ({ init with error := 2 }, whatTag msg)
  | .other => ({ init with error := 1 }, "")

/-- `BestAudioSource_GetPlanarAudio` (wrapper.cpp lines 181–198): forwards
`Data`, `Start`, `Count` to `BAS->GetPlanarAudio`, returns bare status
0/2/1. -/
def BestAudioSource_GetPlanarAudio (o : UnderlyingOutcome Unit) : Int × String :=
  match o with
  | .ok _ => (0, "")
  | .exn msg => (2, whatTag msg)
  | .other => (1, "")

/-- `BestAudioSource_GetPackedAudio` (wrapper.cpp lines 200–217): forwards
`Data`, `Start`, `Count` to `BAS->GetPackedAudio`, returns bare status
0/2/1. -/
def BestAudioSource_GetPackedAudio (o : UnderlyingOutcome Unit) : Int × String :=
  match o with
  | .ok _ => (0, "")
  | .exn msg => (2, whatTag msg)
  | .other => (1, "")

/-!
## Sample delivery (spec §4.3, §6, §8)

The byte-level delivery contract lives in the underlying library
(`audiosource.h` / its implementation, not under `src/`); the wrapper only
forwards the caller's buffers. The functions below are therefore modelled
from the spec.
-/

/-- Modelled from the spec: the decoder's byte output. `pcm c j` is the
`BytesPerSample`-byte encoding the underlying source produces for requested
sample `j` (the sample at position `Start + j`, zero-filled when out of
range) of channel `c` (spec §4.3 and §6: both delivery operations produce
exactly the decoder's PCM for each position, byte-identical between the two
forms). Bytes are `Nat`s. -/
def PcmModel := Nat → Nat → List Nat

/-- Modelled from the spec: the bytes `GetPlanarAudio` writes into the
caller-owned buffer `planes[c]` — channel `c`'s samples for the requested
range, contiguously (spec §4.3: a buffer of `Count * BytesPerSample` bytes
receiving channel `c`'s samples). -/
def planarBytes (pcm : PcmModel) (Count c : Nat) : List Nat :=
  ((List.range Count).map fun j => pcm c j).flatten

/-- Modelled from the spec: the bytes `GetPackedAudio` writes into the
caller-owned buffer — interleaved samples in channel-layout order (spec
§4.3: `Count * Channels * BytesPerSample` bytes, sample-major with the
channels of one sample adjacent). -/
def packedBytes (pcm : PcmModel) (Channels Count : Nat) : List Nat :=
  ((List.range Count).map fun j =>
    ((List.range Channels).map fun c => pcm c j).flatten).flatten

/-- The `BytesPerSample` bytes of sample `j` inside a contiguous per-channel
buffer: bytes `[j*B, j*B + B)`. -/
def sampleBytesAt (buf : List Nat) (B j : Nat) : List Nat :=
  (buf.drop (j * B)).take B

/-- Reinterleaving per-channel (planar) buffers into packed channel order:
for each requested sample `j` in order, the `B` bytes of that sample from
each channel's buffer in channel order. -/
def reinterleavePlanar (planes : Nat → List Nat) (Channels Count B : Nat) : List Nat :=
  ((List.range Count).map fun j =>
    ((List.range Channels).map fun c => sampleBytesAt (planes c) B j).flatten).flatten

/-!
## Façade-level per-handle state (spec §4.1, §7)

The façade's only state is which underlying `AudioSource` objects are alive:
`BestAudioSource_new` creates one, `BestAudioSource_delete` destroys one.
Every other entry point in `wrapper.cpp` merely casts the caller's `self`
pointer and calls a method on it; no façade-side structure exists to be
written (in particular no per-handle error field). The step function below
records each entry point's effect on that state.
-/

/-- One invocation of a façade entry point, with the handle (underlying
object identity) it targets and the scalar arguments `wrapper.cpp` forwards. -/
inductive FacadeOp where
  | newOp
  | deleteOp (h : Nat)
  | getTrack (h : Nat)
  | setMaxCacheSize (h : Nat) (Bytes : Nat)
  | setSeekPreRoll (h : Nat) (Samples : Int)
  | getRelativeStartTime (h : Nat) (Track : Int)
  | getExactDuration (h : Nat)
  | getAudioProperties (h : Nat)
  | getPlanarAudio (h : Nat) (Start Count : Int)
  | getPackedAudio (h : Nat) (Start Count : Int)
deriving DecidableEq

/-- Whether an entry point touches the façade's state at all: only the two
lifecycle operations do. -/
def facadeLifecycle : FacadeOp → Bool
  | .newOp => true
  | .deleteOp _ => true
  | _ => false

/-- Effect of one entry point on the façade's state (the list of live
underlying object identities), given the outcome of its underlying call.
`BestAudioSource_new` adds the freshly constructed object on success (on a
constructor throw no object comes into existence); `BestAudioSource_delete`
removes the object unconditionally (spec §4.1: even a failing teardown
leaves the handle destroyed). Every other entry point leaves the state
untouched, exactly as its `wrapper.cpp` body — a cast of `self` and one
method call — writes no façade-side data. -/
def stepState (s : List Nat) : FacadeOp → UnderlyingOutcome Nat → List Nat
  | .newOp, .ok ptr => ptr :: s
  | .newOp, _ => s
  | .deleteOp h, _ => s.erase h
  | _, _ => s

/-- Concrete decoder byte model used to instantiate delivery theorems on a
small input: one byte per sample per channel. -/
def pcmExample : PcmModel := fun c j => [16 * c + j]

/-!
## Helper lemmas
-/

/-- In a flattening of blocks that all have length `B`, the bytes
`[j*B, j*B + B)` are exactly the `j`-th block. -/
theorem flatten_drop_take (B : Nat) :
    ∀ (ls : List (List Nat)), (∀ l ∈ ls, l.length = B) →
      ∀ j, j < ls.length → ((ls.flatten).drop (j * B)).take B = ls.getD j [] := by
  intro ls
  induction ls with
  | nil =>
      intro _ j hj
      simp at hj
  | cons hd tl ih =>
      intro hlen j hj
      have hhd : hd.length = B := hlen hd (by simp)
      cases j with
      | zero =>
          simp only [List.flatten_cons, Nat.zero_mul, List.drop_zero, List.getD_cons_zero]
          rw [← hhd]
          exact List.take_left hd tl.flatten
      | succ j' =>
          have htl : ∀ l ∈ tl, l.length = B := fun l hl => hlen l (by simp [hl])
          have hj' : j' < tl.length := by simpa using hj
          have hmul : (j' + 1) * B = hd.length + j' * B := by rw [hhd]; ring
          rw [List.flatten_cons, hmul, List.drop_append, List.getD_cons_succ]
          exact ih htl j' hj'

/-- Extracting sample `j` from a channel's planar buffer recovers the
decoder's bytes for that sample, provided every sample is `B` bytes. -/
theorem sampleBytesAt_planarBytes (pcm : PcmModel) (Count c B j : Nat)
    (hB : ∀ c j, (pcm c j).length = B) (hj : j < Count) :
    sampleBytesAt (planarBytes pcm Count c) B j = pcm c j := by
  unfold sampleBytesAt planarBytes
  have hlen : ∀ l ∈ (List.range Count).map (fun j => pcm c j), l.length = B := by
    intro l hl
    obtain ⟨j', _, rfl⟩ := List.mem_map.mp hl
    exact hB c j'
  have hlt : j < ((List.range Count).map fun j => pcm c j).length := by simpa using hj
  rw [flatten_drop_take B _ hlen j hlt]
  simp [List.getD, List.getElem?_map, List.getElem?_range hj]

/-!
## Claim theorems
-/

/-- C1: the claim says an unstructured failure of the underlying operation
yields status 1 from every entry point, in particular from
`BestAudioSource_GetRelativeStartTime` and `BestAudioSource_GetExactDuration`.
In those two entry points the `catch (...)` block assigns `error = 1` to a
fresh local that shadows the result carrier, so the function actually
returns the outer carrier: status 0 (assigned before the underlying call)
and the indeterminate initial `value`. This theorem evaluates the embedded
code on the unstructured-failure outcome. -/
theorem getRelativeStartTime_getExactDuration_catch_all_returns_status_zero :
    ∀ (d : BSW_DoubleWithError) (i : BSW_IntWithError),
      (BestAudioSource_GetRelativeStartTime d .other).1.error = 0 ∧
      (BestAudioSource_GetRelativeStartTime d .other).1.value = d.value ∧
      (BestAudioSource_GetExactDuration i .other).1.error = 0 ∧
      (BestAudioSource_GetExactDuration i .other).1.value = i.value := by
  intros
  and_intros <;> rfl

/-- C2: for every entry point, a structured failure (caught `std::exception`
with message `m`) yields status 2 and appends exactly `what(): ` followed by
`m` to the process-wide `std::cerr` stream, and no entry point writes to the
stream on any other outcome. -/
theorem entry_points_write_sink_only_on_structured_failure :
    ∀ (m : String) (p : BSW_PointerWithError) (i : BSW_IntWithError)
      (d : BSW_DoubleWithError) (ap : BestAudioSource_AudioProperties_flat)
      (ptr : Nat) (v : Int) (w : CDouble) (n : ExactSampleCount) (AP : AudioProperties),
      ((BestAudioSource_new p (.exn m)).2 = whatTag m ∧
        (BestAudioSource_new p (.exn m)).1.error = 2 ∧
        (BestAudioSource_new p (.ok ptr)).2 = "" ∧
        (BestAudioSource_new p .other).2 = "") ∧
      ((BestAudioSource_delete (.exn m)).2 = whatTag m ∧
        (BestAudioSource_delete (.exn m)).1 = 2 ∧
        (BestAudioSource_delete (.ok ())).2 = "" ∧
        (BestAudioSource_delete .other).2 = "") ∧
      ((BestAudioSource_GetTrack i (.exn m)).2 = whatTag m ∧
        (BestAudioSource_GetTrack i (.exn m)).1.error = 2 ∧
        (BestAudioSource_GetTrack i (.ok v)).2 = "" ∧
        (BestAudioSource_GetTrack i .other).2 = "") ∧
      ((BestAudioSource_SetMaxCacheSize (.exn m)).2 = whatTag m ∧
        (BestAudioSource_SetMaxCacheSize (.exn m)).1 = 2 ∧
        (BestAudioSource_SetMaxCacheSize (.ok ())).2 = "" ∧
        (BestAudioSource_SetMaxCacheSize .other).2 = "") ∧
      ((BestAudioSource_SetSeekPreRoll (.exn m)).2 = whatTag m ∧
        (BestAudioSource_SetSeekPreRoll (.exn m)).1 = 2 ∧
        (BestAudioSource_SetSeekPreRoll (.ok ())).2 = "" ∧
        (BestAudioSource_SetSeekPreRoll .other).2 = "") ∧
      ((BestAudioSource_GetRelativeStartTime d (.exn m)).2 = whatTag m ∧
        (BestAudioSource_GetRelativeStartTime d (.exn m)).1.error = 2 ∧
        (BestAudioSource_GetRelativeStartTime d (.ok w)).2 = "" ∧
        (BestAudioSource_GetRelativeStartTime d .other).2 = "") ∧
      ((BestAudioSource_GetExactDuration i (.exn m)).2 = whatTag m ∧
        (BestAudioSource_GetExactDuration i (.exn m)).1.error = 2 ∧
        (BestAudioSource_GetExactDuration i (.ok n)).2 = "" ∧
        (BestAudioSource_GetExactDuration i .other).2 = "") ∧
      ((BestAudioSource_GetAudioProperties ap (.exn m)).2 = whatTag m ∧
        (BestAudioSource_GetAudioProperties ap (.exn m)).1.error = 2 ∧
        (BestAudioSource_GetAudioProperties ap (.ok AP)).2 = "" ∧
        (BestAudioSource_GetAudioProperties ap .other).2 = "") ∧
      ((BestAudioSource_GetPlanarAudio (.exn m)).2 = whatTag m ∧
        (BestAudioSource_GetPlanarAudio (.exn m)).1 = 2 ∧
        (BestAudioSource_GetPlanarAudio (.ok ())).2 = "" ∧
        (BestAudioSource_GetPlanarAudio .other).2 = "") ∧
      ((BestAudioSource_GetPackedAudio (.exn m)).2 = whatTag m ∧
        (BestAudioSource_GetPackedAudio (.exn m)).1 = 2 ∧
        (BestAudioSource_GetPackedAudio (.ok ())).2 = "" ∧
        (BestAudioSource_GetPackedAudio .other).2 = "") := by
  intros
  and_intros <;> rfl

/-- C3 counterexample: the claim says a failed construction leaves the
caller with a null pointer. At the concrete indeterminate carrier
`⟨0, some 7⟩` and an unstructured constructor failure, the returned carrier
has the non-zero status 1 but its `value` is `some 7`, not null: the failure
branches of `BestAudioSource_new` never assign `ret.value`. -/
theorem new_failure_value_not_null_counterexample :
    (BestAudioSource_new ⟨0, some 7⟩ .other).1.error ≠ 0 ∧
    (BestAudioSource_new ⟨0, some 7⟩ .other).1.value ≠ none := by
  decide

/-- C3 (amended): when construction of the underlying `AudioSource` fails,
`BestAudioSource_new` returns a carrier with a non-zero error status (2 for
a structured failure, 1 otherwise), while the handle `value` keeps the
uninitialized carrier's indeterminate prior contents — it is not necessarily
null. -/
theorem new_failure_nonzero_error_value_unspecified :
    ∀ (p : BSW_PointerWithError) (m : String),
      ((BestAudioSource_new p (.exn m)).1.error ≠ 0 ∧
        (BestAudioSource_new p (.exn m)).1.value = p.value) ∧
      ((BestAudioSource_new p .other).1.error ≠ 0 ∧
        (BestAudioSource_new p .other).1.value = p.value) := by
  intro p m
  refine ⟨⟨?_, rfl⟩, ⟨?_, rfl⟩⟩ <;> simp [BestAudioSource_new]

/-- C4: the claim says `BestAudioSource_new` forwards all caller-supplied
open parameters, including the caller's `Progress` callback. The
`wrapper.cpp` definition has no `Progress` (or `CacheMode`) parameter —
contradicting the declaration in `wrapper.h` — and its constructor call
passes the six façade parameters plus a hardcoded `nullptr` in the progress
slot, so the underlying source is always constructed with a null progress
capability. -/
theorem new_constructor_progress_always_null :
    ∀ (SourceFile : String) (Track AjustDelay Threads : Int)
      (CachePath : String) (DrcScale : CDouble),
      BestAudioSource_new_ctorArgs SourceFile Track AjustDelay Threads CachePath DrcScale =
        ⟨SourceFile, Track, AjustDelay, Threads, CachePath, none, DrcScale⟩ ∧
      (BestAudioSource_new_ctorArgs SourceFile Track AjustDelay Threads
        CachePath DrcScale).Progress = none := by
  intros
  exact ⟨rfl, rfl⟩

/-- C5 counterexample: the claim says the success value of
`BestAudioSource_GetExactDuration` equals the underlying 64-bit sample count
without loss. At the concrete count `2^31` (which fits `int64_t` but not
`int`), the wrapper's `int value` field receives `-2^31`, not `2^31`. -/
theorem getExactDuration_truncates_counterexample :
    (BestAudioSource_GetExactDuration ⟨0, 0⟩ (.ok (2 ^ 31))).1.error = 0 ∧
    (BestAudioSource_GetExactDuration ⟨0, 0⟩ (.ok (2 ^ 31))).1.value = -(2 ^ 31) ∧
    (BestAudioSource_GetExactDuration ⟨0, 0⟩ (.ok (2 ^ 31))).1.value ≠ 2 ^ 31 := by
  refine ⟨rfl, ?_, ?_⟩ <;> decide

/-- C5 (amended): on success `BestAudioSource_GetExactDuration` returns
status 0 and, in the 32-bit `int value` field of `BSW_IntWithError`, the
underlying exact sample count narrowed to a signed 32-bit integer; the value
equals the count exactly when the count lies in `[-2^31, 2^31)`. -/
theorem getExactDuration_status0_value_narrowed_count :
    ∀ (i : BSW_IntWithError) (n : ExactSampleCount),
      (BestAudioSource_GetExactDuration i (.ok n)).1 = ⟨0, intCast32 n⟩ ∧
      (-(2 ^ 31) ≤ n → n < 2 ^ 31 → intCast32 n = n) := by
  intro i n
  refine ⟨rfl, fun h1 h2 => ?_⟩
  unfold intCast32
  have h3 : (0 : Int) ≤ n + 2 ^ 31 := by linarith
  have hpow : (2 : Int) ^ 32 = 2 ^ 31 + 2 ^ 31 := by norm_num
  have h4 : n + 2 ^ 31 < 2 ^ 32 := by rw [hpow]; linarith
  rw [Int.emod_eq_of_lt h3 h4]
  ring

/-- C5 witness: the amended theorem applied at the in-range count 5. -/
theorem getExactDuration_status0_value_narrowed_count_witness :
    (BestAudioSource_GetExactDuration ⟨9, 9⟩ (.ok 5)).1 = ⟨0, intCast32 5⟩ ∧
    intCast32 5 = 5 := by
  have h := getExactDuration_status0_value_narrowed_count ⟨9, 9⟩ 5
  exact ⟨h.1, h.2 (by norm_num) (by norm_num)⟩

/-- C6: the claim says `BestAudioSource_GetAudioProperties` fills the
declared struct with the embedded format sub-struct. The `wrapper.cpp` body
instead assigns the flat fields `IsFloat`, `BytesPerSample`,
`BitsPerSample` — fields that do not exist in
`struct BestAudioSource_AudioProperties` as declared in `wrapper.h`, so the
translation unit contradicts its own header. This theorem evaluates what the
body as written computes: on success it copies all eight property values
from the underlying `AudioProperties` into the flat carrier with status 0. -/
theorem getAudioProperties_copies_flat_fields :
    ∀ (ap : BestAudioSource_AudioProperties_flat) (AP : AudioProperties),
      BestAudioSource_GetAudioProperties ap (.ok AP) =
        (⟨0, AP.IsFloat, AP.BytesPerSample, AP.BitsPerSample, AP.SampleRate,
          AP.Channels, AP.ChannelLayout, AP.NumSamples, AP.StartTime⟩, "") := by
  intros
  rfl

/-- C7: for any request with `Count ≥ 0` samples over `Channels` channels
of `B = BytesPerSample` bytes each, the per-channel buffers written by
planar delivery, reinterleaved into packed channel order, are byte-for-byte
the buffer written by packed delivery, given the spec's delivery contract
(every sample of every channel is the decoder's `B`-byte encoding). -/
theorem planar_reinterleaved_equals_packed (pcm : PcmModel) (Channels Count B : Nat)
    (hB : ∀ c j, (pcm c j).length = B) :
    reinterleavePlanar (planarBytes pcm Count) Channels Count B =
      packedBytes pcm Channels Count := by
  unfold reinterleavePlanar packedBytes
  congr 1
  apply List.map_congr_left
  intro j hj
  congr 1
  apply List.map_congr_left
  intro c _
  exact sampleBytesAt_planarBytes pcm Count c B j hB (List.mem_range.mp hj)

/-- C7 witness: the reinterleaving theorem applied to a concrete 2-channel,
2-sample, 1-byte-per-sample decoder model. -/
theorem planar_reinterleaved_equals_packed_witness :
    reinterleavePlanar (planarBytes pcmExample 2) 2 2 1 = packedBytes pcmExample 2 2 :=
  planar_reinterleaved_equals_packed pcmExample 2 2 1 (fun _ _ => rfl)

/-- C8: no entry point other than `BestAudioSource_new` and
`BestAudioSource_delete` modifies the façade's state: whatever the outcome
of the underlying call, stepping any non-lifecycle operation leaves the
façade state exactly as it was (the handle still refers to the same
underlying `AudioSource`, and the façade records nothing — in particular no
error state — on it). -/
theorem non_lifecycle_entry_points_preserve_facade_state :
    ∀ (s : List Nat) (op : FacadeOp) (o : UnderlyingOutcome Nat),
      facadeLifecycle op = false → stepState s op o = s := by
  intro s op o h
  cases op <;> first | rfl | simp [facadeLifecycle] at h

/-- C8 witness: a `GetTrack` call on a concrete façade state. -/
theorem non_lifecycle_entry_points_preserve_facade_state_witness :
    stepState [5] (.getTrack 5) (.ok 3) = [5] :=
  non_lifecycle_entry_points_preserve_facade_state [5] (.getTrack 5) (.ok 3) rfl

/-- C9: every entry point is total at the ABI boundary — each is a total
function of the underlying outcome (no failure propagates; the model
returns on every branch, mirroring the C source where every path reaches a
`return`) — and the status field of its result is always 0, 1 or 2,
whatever the outcome of the underlying call and whatever the indeterminate
initial contents of the local carriers. -/
theorem entry_points_status_always_0_1_or_2 :
    (∀ (p : BSW_PointerWithError) (o : UnderlyingOutcome Nat),
      (BestAudioSource_new p o).1.error = 0 ∨ (BestAudioSource_new p o).1.error = 1 ∨
        (BestAudioSource_new p o).1.error = 2) ∧
    (∀ (o : UnderlyingOutcome Unit),
      (BestAudioSource_delete o).1 = 0 ∨ (BestAudioSource_delete o).1 = 1 ∨
        (BestAudioSource_delete o).1 = 2) ∧
    (∀ (i : BSW_IntWithError) (o : UnderlyingOutcome Int),
      (BestAudioSource_GetTrack i o).1.error = 0 ∨ (BestAudioSource_GetTrack i o).1.error = 1 ∨
        (BestAudioSource_GetTrack i o).1.error = 2) ∧
    (∀ (o : UnderlyingOutcome Unit),
      (BestAudioSource_SetMaxCacheSize o).1 = 0 ∨ (BestAudioSource_SetMaxCacheSize o).1 = 1 ∨
        (BestAudioSource_SetMaxCacheSize o).1 = 2) ∧
    (∀ (o : UnderlyingOutcome Unit),
      (BestAudioSource_SetSeekPreRoll o).1 = 0 ∨ (BestAudioSource_SetSeekPreRoll o).1 = 1 ∨
        (BestAudioSource_SetSeekPreRoll o).1 = 2) ∧
    (∀ (d : BSW_DoubleWithError) (o : UnderlyingOutcome CDouble),
      (BestAudioSource_GetRelativeStartTime d o).1.error = 0 ∨
        (BestAudioSource_GetRelativeStartTime d o).1.error = 1 ∨
        (BestAudioSource_GetRelativeStartTime d o).1.error = 2) ∧
    (∀ (i : BSW_IntWithError) (o : UnderlyingOutcome ExactSampleCount),
      (BestAudioSource_GetExactDuration i o).1.error = 0 ∨
        (BestAudioSource_GetExactDuration i o).1.error = 1 ∨
        (BestAudioSource_GetExactDuration i o).1.error = 2) ∧
    (∀ (ap : BestAudioSource_AudioProperties_flat) (o : UnderlyingOutcome AudioProperties),
      (BestAudioSource_GetAudioProperties ap o).1.error = 0 ∨
        (BestAudioSource_GetAudioProperties ap o).1.error = 1 ∨
        (BestAudioSource_GetAudioProperties ap o).1.error = 2) ∧
    (∀ (o : UnderlyingOutcome Unit),
      (BestAudioSource_GetPlanarAudio o).1 = 0 ∨ (BestAudioSource_GetPlanarAudio o).1 = 1 ∨
        (BestAudioSource_GetPlanarAudio o).1 = 2) ∧
    (∀ (o : UnderlyingOutcome Unit),
      (BestAudioSource_GetPackedAudio o).1 = 0 ∨ (BestAudioSource_GetPackedAudio o).1 = 1 ∨
        (BestAudioSource_GetPackedAudio o).1 = 2) := by
  and_intros <;> intros <;> rename_i o <;> cases o <;>
    simp [BestAudioSource_new, BestAudioSource_delete, BestAudioSource_GetTrack,
      BestAudioSource_SetMaxCacheSize, BestAudioSource_SetSeekPreRoll,
      BestAudioSource_GetRelativeStartTime, BestAudioSource_GetExactDuration,
      BestAudioSource_GetAudioProperties, BestAudioSource_GetPlanarAudio,
      BestAudioSource_GetPackedAudio]

/-- C10: the façade adds no nondeterminism of its own. The five entry
points whose result carriers start uninitialized produce the same status
and the same `std::cerr` output whatever those indeterminate initial
contents are, and when the underlying operation yields a value (identical
results), the entire returned carrier is identical. The remaining five
entry points (`delete`, `SetMaxCacheSize`, `SetSeekPreRoll`,
`GetPlanarAudio`, `GetPackedAudio`) read no indeterminate state at all:
they are functions of the underlying outcome alone by definition. -/
theorem entry_points_facade_deterministic :
    (∀ (p q : BSW_PointerWithError) (o : UnderlyingOutcome Nat),
      (BestAudioSource_new p o).1.error = (BestAudioSource_new q o).1.error ∧
      (BestAudioSource_new p o).2 = (BestAudioSource_new q o).2) ∧
    (∀ (p q : BSW_PointerWithError) (ptr : Nat),
      BestAudioSource_new p (.ok ptr) = BestAudioSource_new q (.ok ptr)) ∧
    (∀ (i j : BSW_IntWithError) (o : UnderlyingOutcome Int),
      (BestAudioSource_GetTrack i o).1.error = (BestAudioSource_GetTrack j o).1.error ∧
      (BestAudioSource_GetTrack i o).2 = (BestAudioSource_GetTrack j o).2) ∧
    (∀ (i j : BSW_IntWithError) (v : Int),
      BestAudioSource_GetTrack i (.ok v) = BestAudioSource_GetTrack j (.ok v)) ∧
    (∀ (d e : BSW_DoubleWithError) (o : UnderlyingOutcome CDouble),
      (BestAudioSource_GetRelativeStartTime d o).1.error =
        (BestAudioSource_GetRelativeStartTime e o).1.error ∧
      (BestAudioSource_GetRelativeStartTime d o).2 =
        (BestAudioSource_GetRelativeStartTime e o).2) ∧
    (∀ (d e : BSW_DoubleWithError) (w : CDouble),
      BestAudioSource_GetRelativeStartTime d (.ok w) =
        BestAudioSource_GetRelativeStartTime e (.ok w)) ∧
    (∀ (i j : BSW_IntWithError) (o : UnderlyingOutcome ExactSampleCount),
      (BestAudioSource_GetExactDuration i o).1.error =
        (BestAudioSource_GetExactDuration j o).1.error ∧
      (BestAudioSource_GetExactDuration i o).2 =
        (BestAudioSource_GetExactDuration j o).2) ∧
    (∀ (i j : BSW_IntWithError) (n : ExactSampleCount),
      BestAudioSource_GetExactDuration i (.ok n) = BestAudioSource_GetExactDuration j (.ok n)) ∧
    (∀ (ap bp : BestAudioSource_AudioProperties_flat) (o : UnderlyingOutcome AudioProperties),
      (BestAudioSource_GetAudioProperties ap o).1.error =
        (BestAudioSource_GetAudioProperties bp o).1.error ∧
      (BestAudioSource_GetAudioProperties ap o).2 =
        (BestAudioSource_GetAudioProperties bp o).2) ∧
    (∀ (ap bp : BestAudioSource_AudioProperties_flat) (AP : AudioProperties),
      BestAudioSource_GetAudioProperties ap (.ok AP) =
        BestAudioSource_GetAudioProperties bp (.ok AP)) := by
  and_intros <;> intros <;>
    first
      | rfl
      | (rename_i o
         cases o <;>
           simp [BestAudioSource_new, BestAudioSource_GetTrack,
             BestAudioSource_GetRelativeStartTime, BestAudioSource_GetExactDuration,
             BestAudioSource_GetAudioProperties])
